import Mathlib

/-!
Verification of the Knowlify retry-and-repair core.

This file gives a shallow embedding, in Lean 4, of the parts of the
Knowlify repository that the specification's claims are about:

* `src/error_handler.py` — `quick_fix_syntax`, `fix_code_with_claude`
  (its exception behaviour), and the error extraction inside
  `execute_manim_script`;
* `src/qa_agent_v5.py` — the repair orchestrator
  `generate_manim_animation` (steps 4–6: syntax-fix loop, render,
  runtime-fix loop with nested syntax re-validation);
* `src/KB Approach/error_handler.py` — `auto_fix_deprecated_api`;
* `src/Agentic Approach/src/eduly/client.py` — `_sanitize_filename`,
  `_check_render_success`, and the `animate` batch loop.

Python strings are modelled as Lean `String` (a wrapper around
`List Char`); the embedding is ASCII-faithful (Python's `\w`, `lower`,
`rstrip` are modelled on the ASCII range, which covers every string the
programs build).  External collaborators — the LLM call, the Manim
subprocess, the filesystem — are modelled as oracles: arbitrary
functions indexed by the number of previous calls, so every theorem
quantifies over all possible collaborator behaviours.
-/

namespace Knowlify

/-! ## Basic string machinery (models of Python `str` operations) -/

/-- Python `\w` on the ASCII range: letters, digits, underscore. -/
def isWordChar (c : Char) : Bool := c.isAlphanum || c = '_'

/-- Predicate `leadsWith pat s` : `pat` occurs at the very start of `s`. -/
def leadsWith : List Char → List Char → Bool
  | [], _ => true
  | _ :: _, [] => false
  | p :: ps, c :: cs => p = c && leadsWith ps cs

/-- Predicate `occursInL pat s` : `pat` occurs somewhere in `s` (Python `pat in s`). -/
def occursInL (pat : List Char) : List Char → Bool
  | [] => pat.isEmpty
  | c :: cs => leadsWith pat (c :: cs) || occursInL pat cs

/-- Python `pat in s` for strings. -/
def occursIn (pat s : String) : Bool := occursInL pat.data s.data

/-- Index of the first occurrence of `pat` in `s` (Python `s.find(pat)`
when the pattern is present). -/
def findIdxL (pat : List Char) : List Char → Option Nat
  | [] => if pat.isEmpty then some 0 else none
  | c :: cs =>
    if leadsWith pat (c :: cs) then some 0
    else (findIdxL pat cs).map (· + 1)

/-- Count of non-overlapping occurrences of a (nonempty) pattern,
scanning left to right: Python `s.count(pat)`.  Fuel is the length of
the scanned list. -/
def countSubAux (pat : List Char) : Nat → List Char → Nat
  | 0, _ => 0
  | _, [] => 0
  | fuel + 1, c :: cs =>
    if leadsWith pat (c :: cs) then
      1 + countSubAux pat fuel ((c :: cs).drop pat.length)
    else
      countSubAux pat fuel cs

/-- Python `s.count(pat)` for a nonempty pattern. -/
def countSub (pat s : String) : Nat := countSubAux pat.data s.data.length s.data

/-- Split a character list at newline characters, keeping empty pieces
(the recursion mirrors Python `str.split('\n')`). -/
def splitNlL : List Char → List (List Char)
  | [] => [[]]
  | c :: cs =>
    let r := splitNlL cs
    if c = '\n' then [] :: r
    else
      match r with
      | [] => [[c]]
      | h :: t => (c :: h) :: t

/-- Python `s.split('\n')` (keeps empty pieces, as `str.split` with an
explicit separator does). -/
def pyLines (s : String) : List String := (splitNlL s.data).map String.mk

/-- Python `'\n'.join(lines)`. -/
def pyJoinLines (l : List String) : String :=
  String.mk (List.intercalate ['\n'] (l.map String.data))

/-- Python `line.rstrip()` on the ASCII range. -/
def pyRstrip (s : String) : String :=
  String.mk ((s.data.reverse.dropWhile Char.isWhitespace).reverse)

/-- Python `s.count(ch)` for a single character. -/
def countChar (c : Char) (s : String) : Nat := s.data.count c

/-- Remove the first `k` occurrences of character `c`. -/
def removeFirstL (c : Char) : Nat → List Char → List Char
  | _, [] => []
  | 0, l => l
  | k + 1, x :: xs =>
    if x = c then removeFirstL c k xs else x :: removeFirstL c (k + 1) xs

/-- Python `s.replace(c, '', k)`: deletes the first `k` occurrences of
the one-character pattern `c`. -/
def pyReplaceCountChar (s : String) (c : Char) (k : Nat) : String :=
  String.mk (removeFirstL c k s.data)

/-- Decimal value of a digit list (most significant first). -/
def decValL (l : List Char) : Nat := l.foldl (fun a c => 10 * a + (c.toNat - 48)) 0

/-- Model of `re.search(r'line (\d+)', error)`: the first position where
the literal `"line "` is followed by at least one digit; returns the
value of the maximal digit run there. -/
def findLineNumL : List Char → Option Nat
  | [] => none
  | c :: cs =>
    if leadsWith [ 'l', 'i', 'n', 'e', ' ' ] (c :: cs) then
      match ((c :: cs).drop 5).takeWhile Char.isDigit with
      | [] => findLineNumL cs
      | d :: ds => some (decValL (d :: ds))
    else findLineNumL cs

/-- Model of `re.search(r'line (\d+)', s)` on strings. -/
def findLineNum (s : String) : Option Nat := findLineNumL s.data

/-- The single-quote character (written by code point to keep source
free of quote literals). -/
def sqc : Char := Char.ofNat 39

/-- One-character string holding a single quote. -/
def sq : String := String.mk [sqc]

/-! ## `error_handler.quick_fix_syntax` (src/error_handler.py lines 25–81) -/

/-- The error marker `"'(' was never closed"`. -/
def parenNeverClosed : String := sq ++ "(" ++ sq ++ " was never closed"

/-- The error marker `"unmatched ')'"`. -/
def unmatchedCloseParen : String := "unmatched " ++ sq ++ ")" ++ sq

/-- The error marker `"'[' was never closed"`. -/
def brackNeverClosed : String := sq ++ "[" ++ sq ++ " was never closed"

/-- Shallow embedding of `quick_fix_syntax(code, error)` from
`src/error_handler.py`.  The Python function is a sequence of three
independent `if` blocks (parentheses, brackets, strings); when a block's
inner conditions fail control falls through to the next block, which the
`Option` chaining reproduces.  Returns `(fixed_code, was_fixed)`. -/
def quickFixSyntax (code err : String) : String × Bool :=
  let parenRes : Option (String × Bool) :=
    if occursIn parenNeverClosed err || occursIn unmatchedCloseParen err then
      match findLineNum err with
      | none => none
      | some n =>
        -- Python: line_num = int(group) - 1; requires 0 <= line_num < len(lines)
        let lines := pyLines code
        if 0 < n && n - 1 < lines.length then
          let line := lines.getD (n - 1) ""
          let opens := countChar '(' line
          let closes := countChar ')' line
          if closes < opens then
            some (pyJoinLines (lines.set (n - 1)
              (pyRstrip line ++ String.mk (List.replicate (opens - closes) ')'))), true)
          else if opens < closes then
            -- Python: line.replace(')', '', closes - opens) — first occurrences
            some (pyJoinLines (lines.set (n - 1)
              (pyReplaceCountChar line ')' (closes - opens))), true)
          else none
        else none
    else none
  match parenRes with
  | some r => r
  | none =>
    let brackRes : Option (String × Bool) :=
      if occursIn brackNeverClosed err then
        match findLineNum err with
        | none => none
        | some n =>
          let lines := pyLines code
          if 0 < n && n - 1 < lines.length then
            let line := lines.getD (n - 1) ""
            let opens := countChar '[' line
            let closes := countChar ']' line
            if closes < opens then
              some (pyJoinLines (lines.set (n - 1)
                (pyRstrip line ++ String.mk (List.replicate (opens - closes) ']'))), true)
            else none  -- no strip branch for brackets in the source
          else none
      else none
    match brackRes with
    | some r => r
    | none =>
      let strRes : Option (String × Bool) :=
        if occursIn "unterminated string" err || occursIn "EOL while scanning" err then
          match findLineNum err with
          | none => none
          | some n =>
            let lines := pyLines code
            if 0 < n && n - 1 < lines.length then
              let line := lines.getD (n - 1) ""
              if countChar '"' line % 2 = 1 then
                some (pyJoinLines (lines.set (n - 1) (pyRstrip line ++ "\"")), true)
              else if countChar sqc line % 2 = 1 then
                some (pyJoinLines (lines.set (n - 1) (pyRstrip line ++ sq)), true)
              else none
            else none
        else none
      match strRes with
      | some r => r
      | none => (code, false)

/-! ## Error extraction inside `execute_manim_script`
(src/error_handler.py lines 203–232) -/

/-- Python `str.lower` on the ASCII range, written as an explicit table
so that pointwise facts about it are provable by case analysis. -/
def asciiLower (c : Char) : Char :=
  match c with
  | 'A' => 'a' | 'B' => 'b' | 'C' => 'c' | 'D' => 'd' | 'E' => 'e'
  | 'F' => 'f' | 'G' => 'g' | 'H' => 'h' | 'I' => 'i' | 'J' => 'j'
  | 'K' => 'k' | 'L' => 'l' | 'M' => 'm' | 'N' => 'n' | 'O' => 'o'
  | 'P' => 'p' | 'Q' => 'q' | 'R' => 'r' | 'S' => 's' | 'T' => 't'
  | 'U' => 'u' | 'V' => 'v' | 'W' => 'w' | 'X' => 'x' | 'Y' => 'y'
  | 'Z' => 'z'
  | c => c

/-- Python `s.lower()` (ASCII). -/
def pyLower (s : String) : String := String.mk (s.data.map asciiLower)

/-- Python `s[i:]`. -/
def sliceFrom (i : Nat) (s : String) : String := String.mk (s.data.drop i)

/-- Python `s[-k:]` for `k > 0` (the whole string when it is shorter
than `k`). -/
def lastChars (k : Nat) (s : String) : String :=
  String.mk (s.data.drop (s.data.length - k))

/-- Python `s[max(0, i - 200):]` where `i = s.find("SyntaxError")`; with
`Nat` subtraction `i - 200` is already clamped at zero. -/
def sliceBack200 (i : Nat) (s : String) : String := sliceFrom (i - 200) s

/-- The fragment from the first `"Traceback"` marker to the end. -/
def tracebackTail (errorOutput : String) : String :=
  sliceFrom ((findIdxL "Traceback".data errorOutput.data).getD 0) errorOutput

/-- The prioritized error search of `execute_manim_script`
(src/error_handler.py lines 208–225), acting on the concatenated
`error_output = stderr + "\n" + stdout`:

1. `"Traceback"` present: the text from that marker to the end;
2. else `"SyntaxError"` present: from 200 characters before it to the end;
3. else a generic error marker present: the last 10 lines containing
   `error` (case-insensitively), joined with newlines;
4. finally, whenever no strategy fired **or the selected fragment is
   shorter than 50 characters**, the last 1000 characters of the output. -/
def extractActualError (errorOutput : String) : String :=
  let fromPatterns : Option String :=
    if occursIn "Traceback" errorOutput then
      some (tracebackTail errorOutput)
    else if occursIn "SyntaxError" errorOutput then
      some (sliceBack200 ((findIdxL "SyntaxError".data errorOutput.data).getD 0) errorOutput)
    else if occursIn "Error:" errorOutput || occursIn "error:" (pyLower errorOutput) then
      let errorLines := (pyLines errorOutput).filter
        (fun line => occursIn "error" (pyLower line) || occursIn "Error" line)
      some (pyJoinLines (errorLines.drop (errorLines.length - 10)))
    else none
  match fromPatterns with
  | none => lastChars 1000 errorOutput
  | some a => if a.data.length < 50 then lastChars 1000 errorOutput else a

/-- The error summary computed for a failed render, as a function of the
captured `(stdout, stderr)`: the source concatenates
`result.stderr + "\n" + result.stdout` and applies the prioritized
search. -/
def errorSummary (stdout stderr : String) : String :=
  extractActualError (stderr ++ "\n" ++ stdout)

/-! ## `execute_manim_script` as a function of the subprocess outcome
(src/error_handler.py lines 176–245) -/

/-- Result dictionary of `execute_manim_script`: `{success, stdout,
stderr, error_message}`.  Python uses `None` for the success case's
`error_message`; it is modelled as the empty string. -/
structure ExecResult where
  success : Bool
  stdout : String
  stderr : String
  errorMessage : String
deriving Repr, DecidableEq

/-- The possible outcomes of the `subprocess.run` call inside
`execute_manim_script`: completion with a return code and captured
output, a `TimeoutExpired`, or any other raised exception. -/
inductive SubOutcome where
  | completed (returncode : Int) (stdout stderr : String)
  | timedOut
  | raised (msg : String)
deriving Repr, DecidableEq

/-- Shallow embedding of `execute_manim_script` (the part after scene
detection): every subprocess outcome, including raised exceptions, is
converted into a structured `ExecResult`; nothing propagates. -/
def executeManimScript : SubOutcome → ExecResult
  | SubOutcome.completed rc out err =>
    if rc = 0 then
      { success := true, stdout := out, stderr := err, errorMessage := "" }
    else
      { success := false, stdout := out, stderr := err
        errorMessage := errorSummary out err }
  | SubOutcome.timedOut =>
    { success := false, stdout := "", stderr := "", errorMessage := "Timeout after 180s" }
  | SubOutcome.raised m =>
    { success := false, stdout := "", stderr := "", errorMessage := m }

/-! ## The repair orchestrator `generate_manim_animation`
(src/qa_agent_v5.py, steps 4–6, lines 636–780)

The collaborators are modelled as oracles indexed by the number of
previous calls of the same collaborator, so each theorem quantifies
over every possible (even stateful) collaborator behaviour:

* `validate n s`   — `validate_python_syntax` on the `n`-th call;
* `quickFix n s e` — `quick_fix_syntax` (rule-based patcher);
* `claude n k s e` — `fix_code_with_claude` with `error_type` `k`
  (`n` counts all previous `fix_code_with_claude` calls; the Python
  code augments `e` with surrounding-line context before the call);
* `render n s`     — `execute_manim_script` on the current script.

`validate_python_syntax` and `quick_fix_syntax` are pure Python
functions; passing them as oracles only weakens nothing, since every
theorem below holds for arbitrary oracles, in particular for the pure
ones. -/

/-- The `error_type` argument of `fix_code_with_claude`. -/
inductive FixKind where
  | synFix
  | runFix
deriving Repr, DecidableEq

/-- Collaborator oracles for the orchestrator. -/
structure Oracles where
  validate : Nat → String → Bool × String
  quickFix : Nat → String → String → String × Bool
  claude : Nat → FixKind → String → String → String
  render : Nat → String → ExecResult

/-- Orchestrator instrumentation state: the current candidate script and
one call counter per collaborator. -/
structure OState where
  script : String
  nValidate : Nat
  nQuick : Nat
  nClaudeSyn : Nat
  nClaudeRun : Nat
  nRender : Nat
deriving Repr, DecidableEq

/-- Initial state for a drafted script. -/
def initState (script0 : String) : OState :=
  { script := script0, nValidate := 0, nQuick := 0
    nClaudeSyn := 0, nClaudeRun := 0, nRender := 0 }

/-- One `validate_python_syntax(script)` call. -/
def doValidate (o : Oracles) (st : OState) : OState × Bool × String :=
  let r := o.validate st.nValidate st.script
  ({ st with nValidate := st.nValidate + 1 }, r)

/-- One `quick_fix_syntax(script, error)` call; the script is replaced
by the patcher's output (Python reassigns `script` in both branches). -/
def doQuickFix (o : Oracles) (st : OState) (err : String) : OState × Bool :=
  ({ st with script := (o.quickFix st.nQuick st.script err).1, nQuick := st.nQuick + 1 },
   (o.quickFix st.nQuick st.script err).2)

/-- One `fix_code_with_claude(..., error_type="syntax", ...)` call. -/
def doClaudeSyn (o : Oracles) (st : OState) (err : String) : OState :=
  let s := o.claude (st.nClaudeSyn + st.nClaudeRun) FixKind.synFix st.script err
  { st with script := s, nClaudeSyn := st.nClaudeSyn + 1 }

/-- One `fix_code_with_claude(..., error_type="runtime", ...)` call. -/
def doClaudeRun (o : Oracles) (st : OState) (err : String) : OState :=
  let s := o.claude (st.nClaudeSyn + st.nClaudeRun) FixKind.runFix st.script err
  { st with script := s, nClaudeRun := st.nClaudeRun + 1 }

/-- One `execute_manim_script(script_path)` call. -/
def doRender (o : Oracles) (st : OState) : OState × ExecResult :=
  let er := o.render st.nRender st.script
  ({ st with nRender := st.nRender + 1 }, er)

/-- STEP 4 of `generate_manim_animation`: the syntax-fix loop.
`fuel` is `max_syntax_fixes - syntax_fix_count`; each iteration calls
the rule-based patcher and, only when it reports no change, one
model-based syntax fix, then re-validates.  Arguments `v`/`e` are the
current `(is_valid, syntax_error)` pair. -/
def synLoop (o : Oracles) : Nat → OState → Bool → String → OState × Bool × String
  | 0, st, v, e => (st, v, e)
  | fuel + 1, st, v, e =>
    if v then (st, v, e)
    else
      let q := doQuickFix o st e
      let st2 := if q.2 then q.1 else doClaudeSyn o q.1 e
      let r := doValidate o st2
      synLoop o fuel r.1 r.2.1 r.2.2

/-- One iteration body of the STEP 6 runtime-fix loop: a model-based
runtime fix, nested syntax re-validation (rule-based then model-based),
and — only when the nested chain ends with valid syntax — a re-render.
Returns `none` for the `continue` path (nested re-validation still
failing), in which case no render happens in this attempt. -/
def runtimeIter (o : Oracles) (st : OState) (er : ExecResult) : OState × Option ExecResult :=
  let st1 := doClaudeRun o st er.errorMessage
  let v1 := doValidate o st1
  if v1.2.1 then
    let r := doRender o v1.1
    (r.1, some r.2)
  else
    let q := doQuickFix o v1.1 v1.2.2
    let v2 := doValidate o q.1
    if v2.2.1 then
      let r := doRender o v2.1
      (r.1, some r.2)
    else
      let st5 := doClaudeSyn o v2.1 v2.2.2
      let v3 := doValidate o st5
      if v3.2.1 then
        let r := doRender o v3.1
        (r.1, some r.2)
      else
        (v3.1, none)  -- "Skipping this attempt": continue

/-- STEP 6 of `generate_manim_animation`: the runtime-fix loop.
`fuel` is `max_runtime_fixes - runtime_fix_count`.  The `continue` path
re-enters the loop with the old execution result; a re-rendered result
re-enters with the new one (the source's `break` on success coincides
with the loop condition). -/
def runtimeLoop (o : Oracles) : Nat → OState → ExecResult → OState × ExecResult
  | 0, st, er => (st, er)
  | fuel + 1, st, er =>
    if er.success then (st, er)
    else
      match runtimeIter o st er with
      | (st1, none) => runtimeLoop o fuel st1 er
      | (st1, some er1) => runtimeLoop o fuel st1 er1

/-- Steps 4–6 of `generate_manim_animation` for one topic: initial
syntax validation, the syntax-fix loop, the initial render (performed
even when the script is still invalid, as in the source), then the
runtime-fix loop.  Returns the final state (script and call counters)
and the final execution result. -/
def generateManimAnimation (o : Oracles) (script0 : String)
    (maxSynFixes maxRuntimeFixes : Nat) : OState × ExecResult :=
  let v0 := doValidate o (initState script0)
  let s4 := synLoop o maxSynFixes v0.1 v0.2.1 v0.2.2
  let r0 := doRender o s4.1
  runtimeLoop o maxRuntimeFixes r0.1 r0.2

/-- Embedding of `generate_manim_animation` with the hard-coded budgets
`max_syntax_fixes = 3`, `max_runtime_fixes = 2`. -/
def generateManimAnimationV5 (o : Oracles) (script0 : String) : OState × ExecResult :=
  generateManimAnimation o script0 3 2

/-! ## Exception propagation (claim about `fix_code_with_claude`)

`fix_code_with_claude` (src/error_handler.py lines 102–170) performs
`bedrock_runtime.converse(...)` with **no** `try`/`except`, and
`generate_manim_animation` wraps none of its `fix_code_with_claude`
calls either, so an exception from the text-generation collaborator
propagates out of the orchestrator.  The render collaborator, by
contrast, is fully wrapped (`executeManimScript` above is total).  The
variant below models the generation call as `Except`-valued and threads
the possible exception through the orchestrator exactly where the
source has no handler. -/

/-- Oracles where the text-generation collaborator may raise. -/
structure OraclesE where
  validate : Nat → String → Bool × String
  quickFix : Nat → String → String → String × Bool
  claude : Nat → FixKind → String → String → Except String String
  render : Nat → String → ExecResult

/-- Model of `fix_code_with_claude` on a possibly-raising generation client:
the `converse` call is not wrapped, so its error is returned as an
`Except.error` that the caller must either handle or propagate. -/
def doClaudeSynE (o : OraclesE) (st : OState) (err : String) : Except String OState :=
  match o.claude (st.nClaudeSyn + st.nClaudeRun) FixKind.synFix st.script err with
  | Except.error e => Except.error e
  | Except.ok s => Except.ok { st with script := s, nClaudeSyn := st.nClaudeSyn + 1 }

/-- Runtime-kind `fix_code_with_claude` on a possibly-raising client. -/
def doClaudeRunE (o : OraclesE) (st : OState) (err : String) : Except String OState :=
  match o.claude (st.nClaudeSyn + st.nClaudeRun) FixKind.runFix st.script err with
  | Except.error e => Except.error e
  | Except.ok s => Except.ok { st with script := s, nClaudeRun := st.nClaudeRun + 1 }

/-- Pure helper reused by the `Except` variant. -/
def doValidateE (o : OraclesE) (st : OState) : OState × Bool × String :=
  let r := o.validate st.nValidate st.script
  ({ st with nValidate := st.nValidate + 1 }, r)

/-- Pure helper reused by the `Except` variant. -/
def doQuickFixE (o : OraclesE) (st : OState) (err : String) : OState × Bool :=
  let (s, fixed) := o.quickFix st.nQuick st.script err
  ({ st with script := s, nQuick := st.nQuick + 1 }, fixed)

/-- Pure helper reused by the `Except` variant. -/
def doRenderE (o : OraclesE) (st : OState) : OState × ExecResult :=
  let er := o.render st.nRender st.script
  ({ st with nRender := st.nRender + 1 }, er)

/-- STEP 4 syntax-fix loop with a possibly-raising generation client:
`generate_manim_animation` has no handler around the
`fix_code_with_claude` call, so the error short-circuits the run. -/
def synLoopE (o : OraclesE) : Nat → OState → Bool → String → Except String (OState × Bool × String)
  | 0, st, v, e => Except.ok (st, v, e)
  | fuel + 1, st, v, e =>
    if v then Except.ok (st, v, e)
    else
      let (st1, fixed) := doQuickFixE o st e
      match (if fixed then Except.ok st1 else doClaudeSynE o st1 e) with
      | Except.error ex => Except.error ex
      | Except.ok st2 =>
        let (st3, r) := doValidateE o st2
        synLoopE o fuel st3 r.1 r.2

/-- STEP 6 iteration body with a possibly-raising generation client. -/
def runtimeIterE (o : OraclesE) (st : OState) (er : ExecResult) :
    Except String (OState × Option ExecResult) :=
  match doClaudeRunE o st er.errorMessage with
  | Except.error ex => Except.error ex
  | Except.ok st1 =>
    let (st2, r1) := doValidateE o st1
    if r1.1 then
      let (st3, er1) := doRenderE o st2
      Except.ok (st3, some er1)
    else
      let (st3, _fixed) := doQuickFixE o st2 r1.2
      let (st4, r2) := doValidateE o st3
      if r2.1 then
        let (st5, er1) := doRenderE o st4
        Except.ok (st5, some er1)
      else
        match doClaudeSynE o st4 r2.2 with
        | Except.error ex => Except.error ex
        | Except.ok st5 =>
          let (st6, r3) := doValidateE o st5
          if r3.1 then
            let (st7, er1) := doRenderE o st6
            Except.ok (st7, some er1)
          else
            Except.ok (st6, none)

/-- STEP 6 runtime-fix loop with a possibly-raising generation client. -/
def runtimeLoopE (o : OraclesE) : Nat → OState → ExecResult → Except String (OState × ExecResult)
  | 0, st, er => Except.ok (st, er)
  | fuel + 1, st, er =>
    if er.success then Except.ok (st, er)
    else
      match runtimeIterE o st er with
      | Except.error ex => Except.error ex
      | Except.ok (st1, none) => runtimeLoopE o fuel st1 er
      | Except.ok (st1, some er1) => runtimeLoopE o fuel st1 er1

/-- Embedding of `generate_manim_animation` with a possibly-raising generation
client: a raised exception from any `fix_code_with_claude` call leaves
the function as a raised exception (`Except.error`), not as a
structured result. -/
def generateManimAnimationE (o : OraclesE) (script0 : String)
    (maxSynFixes maxRuntimeFixes : Nat) : Except String (OState × ExecResult) :=
  let (st1, r0) := doValidateE o (initState script0)
  match synLoopE o maxSynFixes st1 r0.1 r0.2 with
  | Except.error ex => Except.error ex
  | Except.ok (st2, _, _) =>
    let (st3, er0) := doRenderE o st2
    match runtimeLoopE o maxRuntimeFixes st3 er0 with
    | Except.error ex => Except.error ex
    | Except.ok r => Except.ok r

/-! ## Decimal rendering of integers (Python f-string `{n}`) -/

/-- The decimal digit characters. -/
def digitChar (d : Nat) : Char :=
  match d with
  | 0 => '0' | 1 => '1' | 2 => '2' | 3 => '3' | 4 => '4'
  | 5 => '5' | 6 => '6' | 7 => '7' | 8 => '8' | _ => '9'

/-- Decimal digit list with explicit fuel (structural recursion, so
that concrete instances reduce in the kernel); `fuel > n` suffices
since the recursion divides by ten. -/
def decDigitsAux : Nat → Nat → List Char
  | 0, _ => []
  | fuel + 1, n =>
    if n < 10 then [digitChar n]
    else decDigitsAux fuel (n / 10) ++ [digitChar (n % 10)]

/-- Decimal digit list of a natural number, most significant first. -/
def decDigits (n : Nat) : List Char := decDigitsAux (n + 1) n

/-- Decimal rendering of a natural number, as a Python f-string
produces it. -/
def decRepr (n : Nat) : String := String.mk (decDigits n)

/-! ## `EdulyAnimationClient` (src/Agentic Approach/src/eduly/client.py) -/

/-- Character map of `name.replace(" ", "_")`: only the space character
itself is replaced (not tabs or newlines). -/
def replSpace (c : Char) : Char := if c = ' ' then '_' else c

/-- The class kept by `re.sub(r"[^\w\-]", "", ·)`: word characters and
hyphens survive, everything else is deleted. -/
def keepWordHyphen (c : Char) : Bool := isWordChar c || c = '-'

/-- Embedding of `_sanitize_filename` (client.py lines 319–334) on character lists:
replace spaces by underscores, delete non-word/non-hyphen characters,
truncate to 50 characters, lower-case the result. -/
def sanitizeChars (l : List Char) : List Char :=
  (((l.map replSpace).filter keepWordHyphen).take 50).map asciiLower

/-- Embedding of `EdulyAnimationClient._sanitize_filename`. -/
def sanitizeFilename (name : String) : String := String.mk (sanitizeChars name.data)

/-- The output artifact filename `f"{sanitized_name}_{topic_idx}.mp4"`
built in `animate`/`animate_single` (client.py lines 549–557). -/
def outputFilename (name : String) (idx : Nat) : String :=
  sanitizeFilename name ++ "_" ++ decRepr idx ++ ".mp4"

/-- Model of `subprocess.CompletedProcess` as `_render_scene` returns it. -/
structure CompletedProc where
  returncode : Int
  stdout : String
  stderr : String
deriving Repr, DecidableEq

/-- The filesystem state `_check_render_success` inspects: the two
well-known output directories, each either absent (`none`) or present
with a list of entry names. -/
structure Workspace where
  dir480 : Option (List String)
  dir1920 : Option (List String)
deriving Repr, DecidableEq

/-- Test whether `suf` is a suffix of `l`. -/
def endsWithL (suf l : List Char) : Bool := leadsWith suf.reverse l.reverse

/-- An entry matched by `pathlib` `glob("*.mp4")`: ends in `.mp4` and
does not begin with a dot (`*` never matches a leading dot). -/
def isMp4Entry (f : String) : Bool :=
  (match f.data with
   | [] => false
   | c :: _ => c ≠ '.') && endsWithL ".mp4".data f.data

/-- Model of `video_dir.glob("*.mp4")`. -/
def globMp4 (files : List String) : List String := files.filter isMp4Entry

/-- One directory's contribution to `_check_render_success`:
`video_dir.exists() and len(list(video_dir.glob("*.mp4"))) > 0`. -/
def dirHasVideo : Option (List String) → Bool
  | none => false
  | some fs => !(globMp4 fs).isEmpty

/-- Embedding of `EdulyAnimationClient._check_render_success` (client.py lines
245–256): an artifact-presence check over the `480p15` and `1920p15`
output directories, and nothing else. -/
def checkRenderSuccess (ws : Workspace) : Bool :=
  dirHasVideo ws.dir480 || dirHasVideo ws.dir1920

/-- One render call as the retry loop observes it: the subprocess
result (`manim_result`) and the workspace contents afterwards.  Indexed
by render count, the oracle also absorbs the coding agent's effect on
`scene.py` between renders. -/
structure RenderStep where
  proc : CompletedProc
  ws : Workspace
deriving Repr, DecidableEq

/-- The retry loop of `animate` (client.py lines 527–543; the loop in
`animate_single`, lines 374–410, has the same decision structure):
after each render, the loop continues iff `_check_render_success()` is
false and iterations remain.  `iter` is the current iteration count,
`succ` the current success flag. -/
def animLoopGo (render : Nat → RenderStep) : Nat → Nat → Bool → Nat × Bool
  | 0, iter, succ => (iter, succ)
  | fuel + 1, iter, succ =>
    if succ then (iter, succ)
    else animLoopGo render fuel (iter + 1) (checkRenderSuccess (render (iter + 1)).ws)

/-- The initial render plus the retry loop, returning the final
iteration count and success flag.  `render 0` is the initial render;
`render k` the re-render of iteration `k`. -/
def animateTopicRun (render : Nat → RenderStep) (maxIterations : Nat) : Nat × Bool :=
  animLoopGo render maxIterations 0 (checkRenderSuccess (render 0).ws)

/-- Record `AnimationResult`, restricted to the fields the claims are about,
plus an `invoked` instrumentation flag recording whether the per-topic
pipeline (workspace preparation, agent, renderer) ran at all. -/
structure AnimResult where
  topicIndex : Nat
  topicName : String
  success : Bool
  errorMessage : String
  invoked : Bool
deriving Repr, DecidableEq, Inhabited

/-- Embedding of `EdulyAnimationClient.animate` (client.py lines 479–585): one
result is appended per requested index, in request order; an index with
no storyboard (and then one with no topic) short-circuits before any
collaborator call, which the oracle `runTopic` abstracts. -/
def animateBatch (topics : List String) (numStoryboards : Nat)
    (runTopic : Nat → AnimResult) (topicIndices : List Nat) : List AnimResult :=
  topicIndices.map (fun idx =>
    if numStoryboards ≤ idx then
      { topicIndex := idx
        topicName := if idx < topics.length then topics.getD idx "Unknown" else "Unknown"
        success := false
        errorMessage := "No storyboard found for topic index " ++ decRepr idx
        invoked := false }
    else if topics.length ≤ idx then
      { topicIndex := idx, topicName := "Unknown", success := false
        errorMessage := "No topic found in breakdown for index " ++ decRepr idx
        invoked := false }
    else
      { runTopic idx with
          topicIndex := idx
          topicName := topics.getD idx "Unknown"
          invoked := true })

/-! ## `auto_fix_deprecated_api` (src/KB Approach/error_handler.py
lines 51–85) -/

/-- Literal substring replace-all, non-overlapping, left to right
(`re.sub` with a literal pattern).  Fuel is the scanned length. -/
def replaceSubAux (pat rep : List Char) : Nat → List Char → List Char
  | 0, s => s
  | _, [] => []
  | fuel + 1, c :: cs =>
    if leadsWith pat (c :: cs) then
      rep ++ replaceSubAux pat rep fuel ((c :: cs).drop pat.length)
    else
      c :: replaceSubAux pat rep fuel cs

/-- Literal `re.sub(pat, rep, s)` for strings. -/
def replaceSub (pat rep s : String) : String :=
  String.mk (replaceSubAux pat.data rep.data s.data.length s.data)

/-- Word-boundary test for the position before a match. -/
def boundaryBefore : Option Char → Bool
  | none => true
  | some p => !isWordChar p

/-- Word-boundary test for the position after a match. -/
def boundaryAfter : List Char → Bool
  | [] => true
  | a :: _ => !isWordChar a

/-- Model of `re.sub(r'\bpat\b', rep, s)` for a literal `pat`: replaces
word-boundary-delimited occurrences, scanning the original text left to
right (replacements never re-match, as in `re.sub`).  `prev` is the
original character before the scan position. -/
def wordSubAux (pat rep : List Char) : Nat → Option Char → List Char → List Char
  | 0, _, s => s
  | _, _, [] => []
  | fuel + 1, prev, c :: cs =>
    if boundaryBefore prev && leadsWith pat (c :: cs)
        && boundaryAfter ((c :: cs).drop pat.length) then
      rep ++ wordSubAux pat rep fuel pat.getLast? ((c :: cs).drop pat.length)
    else
      c :: wordSubAux pat rep fuel (some c) cs

/-- Model of `re.sub(r'\bpat\b', rep, s)` for strings. -/
def wordSub (pat rep s : String) : String :=
  String.mk (wordSubAux pat.data rep.data s.data.length none s.data)

/-- Index of the first occurrence of a character. -/
def findCharIdx (c : Char) : List Char → Option Nat
  | [] => none
  | x :: xs => if x = c then some 0 else (findCharIdx c xs).map (· + 1)

/-- One attempted match of `ApplyMethod\((\w+)\.(\w+),\s*([^)]+)\)` at
the head of `s`.  The greedy `\w+` groups must be followed by the
literal `.` and `,`; `\s*` then `([^)]+)` ends at the first `)` (with
at least one argument character, backtracking `\s*` when the run before
the `)` is all whitespace).  On success, returns the replacement
`f"{obj}.animate.{method}({args})"` and the rest of the input after the
match. -/
def tryApplyMatch (s : List Char) : Option (List Char × List Char) :=
  if leadsWith "ApplyMethod(".data s then
    let t := s.drop 12
    let obj := t.takeWhile isWordChar
    if obj.isEmpty then none
    else
      match t.drop obj.length with
      | '.' :: t2 =>
        let meth := t2.takeWhile isWordChar
        if meth.isEmpty then none
        else
          match t2.drop meth.length with
          | ',' :: t3 =>
            (match findCharIdx ')' t3 with
             | none => none
             | some k =>
               if k = 0 then none
               else
                 let w := (t3.takeWhile Char.isWhitespace).length
                 let m := min w (k - 1)
                 let args := (t3.drop m).take (k - m)
                 some (obj ++ ".animate.".data ++ meth ++ ('(' :: args) ++ [')'],
                       t3.drop (k + 1)))
          | _ => none
      | _ => none
  else none

/-- Model of `re.sub` over the whole text for the `ApplyMethod` pattern. -/
def applyRewriteAux : Nat → List Char → List Char
  | 0, s => s
  | _, [] => []
  | fuel + 1, c :: cs =>
    match tryApplyMatch (c :: cs) with
    | some (rep, rest) => rep ++ applyRewriteAux fuel rest
    | none => c :: applyRewriteAux fuel cs

/-- Model of `re.sub(apply_method_pattern, ..., s)` for strings. -/
def applyRewrite (s : String) : String := String.mk (applyRewriteAux s.data.length s.data)

/-- Model of `re.search(apply_method_pattern, s)` as a Boolean. -/
def applySearch : List Char → Bool
  | [] => false
  | c :: cs => (tryApplyMatch (c :: cs)).isSome || applySearch cs

/-- Model of `len(re.findall(apply_method_pattern, s))`: the number of
non-overlapping matches. -/
def countApplyAux : Nat → List Char → Nat
  | 0, _ => 0
  | _, [] => 0
  | fuel + 1, c :: cs =>
    match tryApplyMatch (c :: cs) with
    | some (_, rest) => 1 + countApplyAux fuel rest
    | none => countApplyAux fuel cs

/-- Model of `len(re.findall(apply_method_pattern, s))` for strings. -/
def countApply (s : String) : Nat := countApplyAux s.data.length s.data

/-- Shallow embedding of `auto_fix_deprecated_api(code)` from
`src/KB Approach/error_handler.py`: three sequential rewrite rules,
each guarded by a substring / pattern search on the **current** code,
with occurrence counts taken as in the source (the first two on the
original input, the third on the code as it stands).  The arrow glyph
of the source's fix descriptions is transliterated as `->`.  Returns
`(fixed_code, fixes_applied)`. -/
def autoFixDeprecatedApi (code : String) : String × List String :=
  let original := code
  let p1 : String × List String :=
    if occursIn "ShowCreation" code then
      (wordSub "ShowCreation" "Create" code,
       ["ShowCreation -> Create (" ++ decRepr (countSub "ShowCreation" original)
          ++ " occurrences)"])
    else (code, [])
  let p2 : String × List String :=
    if occursIn "self.camera.frame.animate" p1.1 then
      (replaceSub "self.camera.frame.animate" "self.camera.animate" p1.1,
       p1.2 ++ ["self.camera.frame.animate -> self.camera.animate ("
          ++ decRepr (countSub "self.camera.frame.animate" original) ++ " occurrences)"])
    else p1
  if applySearch p2.1.data then
    let newCode := applyRewrite p2.1
    if newCode ≠ p2.1 then
      (newCode,
       p2.2 ++ ["ApplyMethod -> .animate syntax (" ++ decRepr (countApply p2.1)
          ++ " occurrences)"])
    else p2
  else p2

/-! ## Counter lemmas for the orchestrator -/

/-- One syntax-loop iteration performs at most one model-based syntax
fix. -/
lemma synStep_nClaudeSyn (o : Oracles) (st : OState) (e : String) :
    (doValidate o (if (doQuickFix o st e).2 then (doQuickFix o st e).1
       else doClaudeSyn o (doQuickFix o st e).1 e)).1.nClaudeSyn ≤ st.nClaudeSyn + 1 := by
  by_cases h : (o.quickFix st.nQuick st.script e).2 <;>
    simp [h, doValidate, doQuickFix, doClaudeSyn]

/-- One syntax-loop iteration performs no render. -/
lemma synStep_nRender (o : Oracles) (st : OState) (e : String) :
    (doValidate o (if (doQuickFix o st e).2 then (doQuickFix o st e).1
       else doClaudeSyn o (doQuickFix o st e).1 e)).1.nRender = st.nRender := by
  by_cases h : (o.quickFix st.nQuick st.script e).2 <;>
    simp [h, doValidate, doQuickFix, doClaudeSyn]

/-- The syntax-fix loop performs at most `fuel` model-based syntax
fixes. -/
lemma synLoop_nClaudeSyn_le (o : Oracles) :
    ∀ (fuel : Nat) (st : OState) (v : Bool) (e : String),
      (synLoop o fuel st v e).1.nClaudeSyn ≤ st.nClaudeSyn + fuel := by
  intro fuel
  induction fuel with
  | zero => intro st v e; simp [synLoop]
  | succ n ih =>
    intro st v e
    cases v with
    | true => simp [synLoop]
    | false =>
      simp only [synLoop]
      exact le_trans (ih _ _ _) (by have := synStep_nClaudeSyn o st e; omega)

/-- The syntax-fix loop performs no render. -/
lemma synLoop_nRender (o : Oracles) :
    ∀ (fuel : Nat) (st : OState) (v : Bool) (e : String),
      (synLoop o fuel st v e).1.nRender = st.nRender := by
  intro fuel
  induction fuel with
  | zero => intro st v e; simp [synLoop]
  | succ n ih =>
    intro st v e
    cases v with
    | true => simp [synLoop]
    | false =>
      simp only [synLoop]
      rw [if_neg Bool.false_ne_true, ih _ _ _, synStep_nRender o st e]

/-- One runtime-fix attempt performs at most one model-based syntax
fix. -/
lemma runtimeIter_nClaudeSyn_le (o : Oracles) (st : OState) (er : ExecResult) :
    (runtimeIter o st er).1.nClaudeSyn ≤ st.nClaudeSyn + 1 := by
  simp only [runtimeIter]
  split_ifs <;>
    simp [doRender, doValidate, doQuickFix, doClaudeSyn, doClaudeRun]

/-- One runtime-fix attempt performs at most one render. -/
lemma runtimeIter_nRender_le (o : Oracles) (st : OState) (er : ExecResult) :
    (runtimeIter o st er).1.nRender ≤ st.nRender + 1 := by
  simp only [runtimeIter]
  split_ifs <;>
    simp [doRender, doValidate, doQuickFix, doClaudeSyn, doClaudeRun]

/-- The runtime-fix loop performs at most `fuel` model-based syntax
fixes. -/
lemma runtimeLoop_nClaudeSyn_le (o : Oracles) :
    ∀ (fuel : Nat) (st : OState) (er : ExecResult),
      (runtimeLoop o fuel st er).1.nClaudeSyn ≤ st.nClaudeSyn + fuel := by
  intro fuel
  induction fuel with
  | zero => intro st er; simp [runtimeLoop]
  | succ n ih =>
    intro st er
    simp only [runtimeLoop]
    split
    · exact Nat.le_add_right _ _
    · have hb := runtimeIter_nClaudeSyn_le o st er
      rcases h : runtimeIter o st er with ⟨st1, op⟩
      rw [h] at hb
      have hb1 : st1.nClaudeSyn ≤ st.nClaudeSyn + 1 := hb
      cases op with
      | none => exact le_trans (ih st1 er) (by omega)
      | some er1 => exact le_trans (ih st1 er1) (by omega)

/-- The runtime-fix loop performs at most `fuel` renders. -/
lemma runtimeLoop_nRender_le (o : Oracles) :
    ∀ (fuel : Nat) (st : OState) (er : ExecResult),
      (runtimeLoop o fuel st er).1.nRender ≤ st.nRender + fuel := by
  intro fuel
  induction fuel with
  | zero => intro st er; simp [runtimeLoop]
  | succ n ih =>
    intro st er
    simp only [runtimeLoop]
    split
    · exact Nat.le_add_right _ _
    · have hb := runtimeIter_nRender_le o st er
      rcases h : runtimeIter o st er with ⟨st1, op⟩
      rw [h] at hb
      have hb1 : st1.nRender ≤ st.nRender + 1 := hb
      cases op with
      | none => exact le_trans (ih st1 er) (by omega)
      | some er1 => exact le_trans (ih st1 er1) (by omega)

/-- A `runtime_fix` attempt that ends in the `continue` path performed
no render. -/
lemma runtimeIter_none_nRender (o : Oracles) (st : OState) (er : ExecResult)
    (st' : OState) (h : runtimeIter o st er = (st', none)) : st'.nRender = st.nRender := by
  revert h
  simp only [runtimeIter]
  split_ifs <;> intro h
  · exact absurd (congrArg Prod.snd h) (by simp)
  · exact absurd (congrArg Prod.snd h) (by simp)
  · exact absurd (congrArg Prod.snd h) (by simp)
  · have h1 : _ = st' := congrArg Prod.fst h
    rw [← h1]
    rfl

/-! ## Concrete adversarial collaborators used in the counterexamples -/

/-- A render result that always reports failure. -/
def failER : ExecResult :=
  { success := false, stdout := "", stderr := "", errorMessage := "boom" }

/-- Collaborators for which validation always fails, the rule-based
patcher never changes anything, and every render fails. -/
def oAllFail : Oracles :=
  { validate := fun _ _ => (false, "line 1: bad")
    quickFix := fun _ s _ => (s, false)
    claude := fun _ _ s _ => s
    render := fun _ _ => failER }

/-- Collaborators for which the drafted script is valid but every
model-produced fix is syntactically broken and unrepairable, and every
render fails: each runtime-fix attempt ends in the nested `continue`
path. -/
def oNested : Oracles :=
  { validate := fun _ s => (s = "ok", "line 1: bad")
    quickFix := fun _ s _ => (s, false)
    claude := fun _ _ _ _ => "broken"
    render := fun _ _ => failER }

/-- Collaborators realizing Scenario D: syntax is always valid and the
render fails exactly twice before succeeding on the third call. -/
def oScenD : Oracles :=
  { validate := fun _ _ => (true, "")
    quickFix := fun _ s _ => (s, false)
    claude := fun _ _ s _ => s
    render := fun n _ =>
      { success := decide (2 ≤ n), stdout := "", stderr := "", errorMessage := "err" } }

/-! ## Claim C1 -/

/-- C1 counterexample: with the source's budgets
`max_syntax_fixes = 3`, `max_runtime_fixes = 2`, collaborators whose
rule-based patcher always reports `changed=false` drive the
orchestrator to **five** `fix_code_with_claude(error_type="syntax")`
calls — three in the STEP 4 loop plus one inside each of the two
runtime-fix attempts' nested re-validations — exceeding the claimed
bound `maxSyntaxFixes = 3`.  The nested syntax fixes are not counted
against `max_syntax_fixes`. -/
theorem synFixBudget_counterexample :
    (generateManimAnimationV5 oAllFail "bad").1.nClaudeSyn = 5 ∧
    ¬ ((generateManimAnimationV5 oAllFail "bad").1.nClaudeSyn ≤ 3) := by
  decide

/-- C1 (amended): for every collaborator behaviour, every drafted
script, and budgets `maxSynFixes = N`, `maxRuntimeFixes = M`, the total
number of model-based syntax-fix invocations across one topic is at
most `N + M`: at most `N` in the syntax-validation loop and at most one
more per runtime-fix attempt's nested syntax re-validation, the latter
not being counted against `N`. -/
theorem synFixCalls_le_budget_sum :
    ∀ (o : Oracles) (s : String) (n m : Nat),
      (generateManimAnimation o s n m).1.nClaudeSyn ≤ n + m := by
  intro o s n m
  show (runtimeLoop o m
      (doRender o (synLoop o n (doValidate o (initState s)).1
        (doValidate o (initState s)).2.1 (doValidate o (initState s)).2.2).1).1
      (doRender o (synLoop o n (doValidate o (initState s)).1
        (doValidate o (initState s)).2.1 (doValidate o (initState s)).2.2).1).2).1.nClaudeSyn
    ≤ n + m
  have h2 := runtimeLoop_nClaudeSyn_le o m
    (doRender o (synLoop o n (doValidate o (initState s)).1
      (doValidate o (initState s)).2.1 (doValidate o (initState s)).2.2).1).1
    (doRender o (synLoop o n (doValidate o (initState s)).1
      (doValidate o (initState s)).2.1 (doValidate o (initState s)).2.2).1).2
  have h1 := synLoop_nClaudeSyn_le o n (doValidate o (initState s)).1
    (doValidate o (initState s)).2.1 (doValidate o (initState s)).2.2
  have h0 : (doValidate o (initState s)).1.nClaudeSyn = 0 := rfl
  have hdr : (doRender o (synLoop o n (doValidate o (initState s)).1
      (doValidate o (initState s)).2.1 (doValidate o (initState s)).2.2).1).1.nClaudeSyn
      = (synLoop o n (doValidate o (initState s)).1
      (doValidate o (initState s)).2.1 (doValidate o (initState s)).2.2).1.nClaudeSyn := rfl
  omega

/-! ## Claim C2 -/

/-- C2 counterexample: with the source's budgets and collaborators for
which the first runtime-fix attempt's nested syntax re-validation fails
even after the rule-based and model-based repairs, the orchestrator
does **not** stop: it performs a second runtime-fix attempt (two
`fix_code_with_claude(error_type="runtime")` calls in total, where the
claim's "no additional runtime-fix attempts" would allow only one).
The `continue` statement re-enters the loop while budget remains. -/
theorem nestedFailureStops_counterexample :
    (generateManimAnimationV5 oNested "ok").1.nClaudeRun = 2 ∧
    ¬ ((generateManimAnimationV5 oNested "ok").1.nClaudeRun ≤ 1) := by
  decide

/-- C2 (amended): when a runtime-fix attempt's nested syntax
re-validation still fails after the rule-based and model-based repairs,
the orchestrator skips only the render of that attempt (the render
count is unchanged), re-enters the runtime-fix loop with the old
execution result while runtime budget remains, and terminates —
preserving the current candidate state and last execution result —
exactly when the budget is exhausted. -/
theorem nestedFailure_skips_render :
    (∀ (o : Oracles) (st : OState) (er : ExecResult) (st' : OState),
        runtimeIter o st er = (st', none) → st'.nRender = st.nRender) ∧
    (∀ (o : Oracles) (fuel : Nat) (st : OState) (er : ExecResult) (st' : OState),
        er.success = false → runtimeIter o st er = (st', none) →
        runtimeLoop o (fuel + 1) st er = runtimeLoop o fuel st' er) ∧
    (∀ (o : Oracles) (st : OState) (er : ExecResult),
        runtimeLoop o 0 st er = (st, er)) := by
  refine ⟨runtimeIter_none_nRender, ?_, fun o st er => rfl⟩
  intro o fuel st er st' hs hiter
  simp only [runtimeLoop, hiter, hs]
  rw [if_neg Bool.false_ne_true]

/-- State reached by `oNested`'s first runtime-fix attempt. -/
def stNested1 : OState :=
  { script := "broken", nValidate := 3, nQuick := 1
    nClaudeSyn := 1, nClaudeRun := 1, nRender := 0 }

/-- Witness for `nestedFailure_skips_render` at the concrete `oNested`
collaborators: the first runtime-fix attempt takes the `continue` path
and performs no render. -/
theorem nestedFailure_skips_render_witness :
    runtimeIter oNested (initState "ok") failER = (stNested1, none) ∧
    stNested1.nRender = (initState "ok").nRender :=
  ⟨by decide, nestedFailure_skips_render.1 oNested (initState "ok") failER stNested1 (by decide)⟩

/-! ## Claim C3 -/

/-- Raising generation collaborator: `bedrock_runtime.converse` raises
`msg` on every call; validation always fails and the rule-based patcher
never fixes, so the first syntax-fix attempt reaches the generation
call. -/
def oRaiseMsg (msg : String) : OraclesE :=
  { validate := fun _ _ => (false, "line 1: bad")
    quickFix := fun _ s _ => (s, false)
    claude := fun _ _ _ _ => Except.error msg
    render := fun _ _ => failER }

/-- C3 counterexample: a generation-collaborator exception (for
example a throttling error raised by `converse`) propagates out of
`generate_manim_animation` as a raised exception instead of being
folded into a structured result — `fix_code_with_claude` has no
`try`/`except` around the `converse` call and the orchestrator wraps
none of its `fix_code_with_claude` calls. -/
theorem orchestratorNeverRaises_counterexample :
    generateManimAnimationE (oRaiseMsg "ThrottlingException") "bad" 3 2 =
      Except.error "ThrottlingException" := by
  rfl

/-- C3 (amended): exceptions from the render collaborator never
propagate — `execute_manim_script` converts subprocess exceptions and
timeouts into structured `ExecResult` values — but an exception from
the text-generation call inside `fix_code_with_claude` is not caught
anywhere and propagates out of `generate_manim_animation`. -/
theorem renderWrapped_generationUnwrapped :
    (∀ m : String, executeManimScript (SubOutcome.raised m) =
        { success := false, stdout := "", stderr := "", errorMessage := m }) ∧
    (executeManimScript SubOutcome.timedOut =
        { success := false, stdout := "", stderr := ""
          errorMessage := "Timeout after 180s" }) ∧
    (∀ m : String,
        generateManimAnimationE (oRaiseMsg m) "bad" 3 2 = Except.error m) := by
  exact ⟨fun m => rfl, rfl, fun m => rfl⟩

/-! ## Claim C4 -/

/-- C4: for every collaborator behaviour and budgets `N`, `M`, the
orchestrator performs at most `M + 1` render calls (the initial render
plus at most one re-render per runtime-fix attempt); and in Scenario D
— syntax always valid, renders failing exactly twice before succeeding
— the run with the source's budgets performs exactly 3 render calls,
two runtime-fix attempts, and reports success. -/
theorem renderCalls_le_budget_and_scenarioD :
    (∀ (o : Oracles) (s : String) (n m : Nat),
        (generateManimAnimation o s n m).1.nRender ≤ m + 1) ∧
    ((generateManimAnimationV5 oScenD "draft").1.nRender = 3 ∧
     (generateManimAnimationV5 oScenD "draft").2.success = true ∧
     (generateManimAnimationV5 oScenD "draft").1.nClaudeRun = 2) := by
  constructor
  · intro o s n m
    show (runtimeLoop o m
        (doRender o (synLoop o n (doValidate o (initState s)).1
          (doValidate o (initState s)).2.1 (doValidate o (initState s)).2.2).1).1
        (doRender o (synLoop o n (doValidate o (initState s)).1
          (doValidate o (initState s)).2.1 (doValidate o (initState s)).2.2).1).2).1.nRender
      ≤ m + 1
    have h2 := runtimeLoop_nRender_le o m
      (doRender o (synLoop o n (doValidate o (initState s)).1
        (doValidate o (initState s)).2.1 (doValidate o (initState s)).2.2).1).1
      (doRender o (synLoop o n (doValidate o (initState s)).1
        (doValidate o (initState s)).2.1 (doValidate o (initState s)).2.2).1).2
    have h1 := synLoop_nRender o n (doValidate o (initState s)).1
      (doValidate o (initState s)).2.1 (doValidate o (initState s)).2.2
    have h0 : (doValidate o (initState s)).1.nRender = 0 := rfl
    have hdr : (doRender o (synLoop o n (doValidate o (initState s)).1
        (doValidate o (initState s)).2.1 (doValidate o (initState s)).2.2).1).1.nRender
        = (synLoop o n (doValidate o (initState s)).1
        (doValidate o (initState s)).2.1 (doValidate o (initState s)).2.2).1.nRender + 1 := rfl
    omega
  · exact ⟨by decide, by decide, by decide⟩

/-! ## Claim C5 -/

/-- C5 counterexample: for source `") (1)"` (one `(`, two `)`) with a
line-1 unmatched-`)` error, `quick_fix_syntax` removes the **first**
excess `)` of the line — `line.replace(')', '', 1)` — producing
`" (1)"`, whereas the claim's "stripped from the end of the line" would
produce `") (1"`.  The two outputs differ. -/
theorem quickFixStrip_counterexample :
    quickFixSyntax ") (1)" ("line 1: " ++ unmatchedCloseParen) = (" (1)", true) ∧
    (" (1)" : String) ≠ ") (1" := by
  exact ⟨by decide, by decide⟩

/-- C5 (amended): for every source and syntax-error message naming line
`n` (1-based, in range) and reporting an unclosed `(` or unmatched `)`:
counting `(`/`)` on that line only, if opens exceed closes the
right-stripped line gets the deficit of `)` appended and
`changed=true`; if closes exceed opens the **first** (not last)
`closes - opens` occurrences of `)` are removed from the line and
`changed=true`.  For unclosed-`[` errors (with no parenthesis marker
present) only the append case exists: a deficit of `]` is appended to
the right-stripped line; there is no strip branch for brackets. -/
theorem quickFixSyntax_line_rules :
    (∀ (code err : String) (n : Nat),
      (occursIn parenNeverClosed err || occursIn unmatchedCloseParen err) = true →
      findLineNum err = some n →
      0 < n → n - 1 < (pyLines code).length →
      (countChar ')' ((pyLines code).getD (n - 1) "") <
          countChar '(' ((pyLines code).getD (n - 1) "") →
        quickFixSyntax code err =
          (pyJoinLines ((pyLines code).set (n - 1)
            (pyRstrip ((pyLines code).getD (n - 1) "") ++
             String.mk (List.replicate
               (countChar '(' ((pyLines code).getD (n - 1) "") -
                countChar ')' ((pyLines code).getD (n - 1) "")) ')'))), true)) ∧
      (countChar '(' ((pyLines code).getD (n - 1) "") <
          countChar ')' ((pyLines code).getD (n - 1) "") →
        quickFixSyntax code err =
          (pyJoinLines ((pyLines code).set (n - 1)
            (pyReplaceCountChar ((pyLines code).getD (n - 1) "") ')'
              (countChar ')' ((pyLines code).getD (n - 1) "") -
               countChar '(' ((pyLines code).getD (n - 1) "")))), true))) ∧
    (∀ (code err : String) (n : Nat),
      occursIn brackNeverClosed err = true →
      (occursIn parenNeverClosed err || occursIn unmatchedCloseParen err) = false →
      findLineNum err = some n →
      0 < n → n - 1 < (pyLines code).length →
      countChar ']' ((pyLines code).getD (n - 1) "") <
        countChar '[' ((pyLines code).getD (n - 1) "") →
      quickFixSyntax code err =
        (pyJoinLines ((pyLines code).set (n - 1)
          (pyRstrip ((pyLines code).getD (n - 1) "") ++
           String.mk (List.replicate
             (countChar '[' ((pyLines code).getD (n - 1) "") -
              countChar ']' ((pyLines code).getD (n - 1) "")) ']'))), true)) := by
  constructor
  · intro code err n hmark hline hn hlen
    constructor
    · intro hcmp
      simp only [quickFixSyntax, hmark, hline, if_true]
      rw [if_pos (by simp [hn, hlen])]
      rw [if_pos hcmp]
    · intro hcmp
      simp only [quickFixSyntax, hmark, hline, if_true]
      rw [if_pos (by simp [hn, hlen])]
      rw [if_neg (by omega), if_pos hcmp]
  · intro code err n hbr hpar hline hn hlen hcmp
    simp only [quickFixSyntax, hpar, hbr, hline, Bool.false_eq_true, if_false, if_true]
    rw [if_pos (by simp [hn, hlen])]
    rw [if_pos hcmp]

/-- Witness for `quickFixSyntax_line_rules` at Scenario A: source
`"foo(1, 2"` with error `"line 1: '(' was never closed"` yields
`("foo(1, 2)", true)`. -/
theorem quickFixSyntax_line_rules_witness :
    quickFixSyntax "foo(1, 2" ("line 1: " ++ parenNeverClosed) = ("foo(1, 2)", true) :=
  ((quickFixSyntax_line_rules.1 "foo(1, 2" ("line 1: " ++ parenNeverClosed) 1
      (by decide) (by decide) (by decide) (by decide)).1 (by decide)).trans (by decide)

/-! ## Claim C6 -/

/-- A failing-render stderr whose `Traceback` marker sits at the very
end: the fragment from the marker to the end is only 10 characters. -/
def cStderr : String := String.mk (List.replicate 60 'a') ++ "Traceback"

/-- C6 counterexample: when the text from the `Traceback` marker to the
end is shorter than 50 characters, the `len(actual_error) < 50`
fallback overrides the traceback strategy and the summary becomes the
last 1000 characters of the whole output — not the text from the
marker to the end, contradicting the claim that lower-priority
strategies are used only when no traceback marker exists. -/
theorem tracebackPriority_counterexample :
    errorSummary "" cStderr = cStderr ++ "\n" ∧
    tracebackTail (cStderr ++ "\n" ++ "") = "Traceback\n" ∧
    (cStderr ++ "\n" : String) ≠ "Traceback\n" :=
  ⟨by decide, by decide, by decide⟩

/-- C6 (amended): for every `(stdout, stderr)` of a failed render, over
the concatenated output `stderr + "\n" + stdout`: if a `Traceback`
marker is present the summary is the text from that marker to the end,
**unless** that text is shorter than 50 characters, in which case the
summary is the last-1000-characters fallback; the lower-priority
strategies (syntax-error window, generic error lines) are consulted
only when no traceback marker exists. -/
theorem tracebackPriority_with_fallback :
    ∀ (stdout stderr : String),
      occursIn "Traceback" (stderr ++ "\n" ++ stdout) = true →
      errorSummary stdout stderr =
        (if (tracebackTail (stderr ++ "\n" ++ stdout)).data.length < 50
         then lastChars 1000 (stderr ++ "\n" ++ stdout)
         else tracebackTail (stderr ++ "\n" ++ stdout)) := by
  intro stdout stderr h
  simp only [errorSummary, extractActualError, h, if_true]

/-- Output containing both a traceback and a generic error line, with a
long enough traceback fragment. -/
def wErr : String :=
  "a generic error: noise line\nTraceback (most recent call last)\nValueError: something went wrong in the scene construction"

/-- Witness for `tracebackPriority_with_fallback`: on output containing
both a traceback marker and a generic `error` line, the summary is the
traceback fragment, not merely the generic line. -/
theorem tracebackPriority_with_fallback_witness :
    errorSummary "" wErr = tracebackTail (wErr ++ "\n" ++ "") := by
  rw [tracebackPriority_with_fallback "" wErr (by decide)]
  rw [if_neg (by decide)]

/-! ## Claim C7 -/

/-- A pattern at the start of a list is still at the start after
appending. -/
lemma leadsWith_append (p : List Char) :
    ∀ (l m : List Char), leadsWith p l = true → leadsWith p (l ++ m) = true := by
  induction p with
  | nil => intro l m _; cases l <;> simp [leadsWith]
  | cons x xs ih =>
    intro l m h
    cases l with
    | nil => simp [leadsWith] at h
    | cons c cs =>
      simp only [leadsWith, Bool.and_eq_true] at h ⊢
      exact ⟨h.1, ih cs m h.2⟩

/-- A pattern at the start of a list occurs in it. -/
lemma occursInL_of_leadsWith (p s : List Char) (h : leadsWith p s = true) :
    occursInL p s = true := by
  cases s with
  | nil =>
    cases p with
    | nil => rfl
    | cons x xs => simp [leadsWith] at h
  | cons c cs => simp [occursInL, h]

/-- A string beginning with `p` (followed by anything) contains `p`. -/
lemma occursIn_append_of_leadsWith (p l m : String)
    (h : leadsWith p.data l.data = true) : occursIn p (l ++ m) = true := by
  unfold occursIn
  rw [String.data_append]
  exact occursInL_of_leadsWith _ _ (leadsWith_append _ _ _ h)

/-- Value of `getD` after `map`, for an index in range. -/
lemma getD_map_of_lt {α β : Type} (f : α → β) (l : List α) (i : Nat)
    (hi : i < l.length) (d : α) (d' : β) : (l.map f).getD i d' = f (l.getD i d) := by
  induction l generalizing i with
  | nil => simp at hi
  | cons a t ih =>
    cases i with
    | zero => simp
    | succ k =>
      simp only [List.map_cons, List.getD_cons_succ]
      exact ih k (Nat.lt_of_succ_lt_succ (by simpa using hi))

/-- C7: for every batch call, the result list has exactly one entry per
requested index, in request order; and every requested index with no
corresponding storyboard entry yields an immediate failure result whose
error message contains `"No storyboard found"`, without the per-topic
pipeline (coding agent, renderer) being invoked for that index. -/
theorem missingStoryboard_immediate_failure :
    ∀ (topics : List String) (numSb : Nat) (runTopic : Nat → AnimResult)
      (idxs : List Nat),
      (animateBatch topics numSb runTopic idxs).length = idxs.length ∧
      (∀ i, i < idxs.length → numSb ≤ idxs.getD i 0 →
        ((animateBatch topics numSb runTopic idxs).getD i default).success = false ∧
        occursIn "No storyboard found"
          ((animateBatch topics numSb runTopic idxs).getD i default).errorMessage = true ∧
        ((animateBatch topics numSb runTopic idxs).getD i default).invoked = false ∧
        ((animateBatch topics numSb runTopic idxs).getD i default).topicIndex
          = idxs.getD i 0) := by
  intro topics numSb runTopic idxs
  constructor
  · exact List.length_map idxs _
  · intro i hi hsb
    unfold animateBatch
    rw [getD_map_of_lt _ idxs i hi 0 default]
    rw [if_pos hsb]
    refine ⟨rfl, ?_, rfl, rfl⟩
    exact occursIn_append_of_leadsWith _ _ _ (by decide)

/-- Per-topic pipeline oracle used in the C7 witness. -/
def wRunTopic : Nat → AnimResult := fun i =>
  { topicIndex := i, topicName := "", success := true, errorMessage := "", invoked := true }

/-- Witness for `missingStoryboard_immediate_failure`: one topic, one
storyboard, requested indices `[1, 0]` — index 1 has no storyboard and
yields an immediate non-invoked failure mentioning
"No storyboard found". -/
theorem missingStoryboard_immediate_failure_witness :
    (animateBatch ["Derivatives"] 1 wRunTopic [1, 0]).length = 2 ∧
    ((animateBatch ["Derivatives"] 1 wRunTopic [1, 0]).getD 0 default).success = false ∧
    occursIn "No storyboard found"
      ((animateBatch ["Derivatives"] 1 wRunTopic [1, 0]).getD 0 default).errorMessage = true ∧
    ((animateBatch ["Derivatives"] 1 wRunTopic [1, 0]).getD 0 default).invoked = false := by
  have h := missingStoryboard_immediate_failure ["Derivatives"] 1 wRunTopic [1, 0]
  have h2 := h.2 0 (by decide) (by decide)
  exact ⟨h.1.trans (by decide), h2.1, h2.2.1, h2.2.2.1⟩

/-! ## Claim C10 -/

/-- The retry loop's behaviour depends only on the workspace stream,
never on the subprocess results. -/
lemma animLoopGo_congr (r1 r2 : Nat → RenderStep) (h : ∀ n, (r1 n).ws = (r2 n).ws) :
    ∀ (fuel iter : Nat) (succ : Bool),
      animLoopGo r1 fuel iter succ = animLoopGo r2 fuel iter succ := by
  intro fuel
  induction fuel with
  | zero => intro iter succ; rfl
  | succ n ih =>
    intro iter succ
    simp only [animLoopGo]
    by_cases hs : succ = true
    · rw [if_pos hs, if_pos hs]
    · rw [if_neg hs, if_neg hs, h (iter + 1)]
      exact ih (iter + 1) _

/-- The loop's final success flag is the artifact check of the last
render's workspace. -/
lemma animLoopGo_final (render : Nat → RenderStep) :
    ∀ (fuel iter : Nat),
      (animLoopGo render fuel iter (checkRenderSuccess (render iter).ws)).2
        = checkRenderSuccess
            (render (animLoopGo render fuel iter
              (checkRenderSuccess (render iter).ws)).1).ws := by
  intro fuel
  induction fuel with
  | zero => intro iter; rfl
  | succ n ih =>
    intro iter
    simp only [animLoopGo]
    by_cases h : checkRenderSuccess (render iter).ws = true
    · rw [if_pos h]
    · rw [if_neg h]
      exact ih (iter + 1)

/-- C10: in the `animate`/`animate_single` retry loop, whether a render
attempt succeeded — and hence whether the loop stops — is decided
solely by artifact presence: (1) two render collaborators whose
workspace contents agree at every step produce identical loop outcomes
regardless of their subprocess exit codes, stdout, and stderr; (2) the
final success flag equals `_check_render_success` — the `.mp4`-presence
check over the `480p15`/`1920p15` directories — applied to the last
render's workspace. -/
theorem renderDecision_artifact_only :
    (∀ (r1 r2 : Nat → RenderStep) (m : Nat),
        (∀ n, (r1 n).ws = (r2 n).ws) →
        animateTopicRun r1 m = animateTopicRun r2 m) ∧
    (∀ (r : Nat → RenderStep) (m : Nat),
        (animateTopicRun r m).2
          = checkRenderSuccess (r (animateTopicRun r m).1).ws) := by
  constructor
  · intro r1 r2 m h
    unfold animateTopicRun
    rw [h 0]
    exact animLoopGo_congr r1 r2 h m 0 _
  · intro r m
    exact animLoopGo_final r m 0

/-- A workspace with one rendered artifact in the `480p15` directory. -/
def wsOK : Workspace := { dir480 := some ["Scene.mp4"], dir1920 := none }

/-- Render collaborator whose subprocess reports exit code 0. -/
def renderA : Nat → RenderStep := fun _ =>
  { proc := { returncode := 0, stdout := "", stderr := "" }, ws := wsOK }

/-- Render collaborator with the same workspace contents but a failing
exit code and noisy output. -/
def renderB : Nat → RenderStep := fun _ =>
  { proc := { returncode := 1, stdout := "junk", stderr := "boom" }, ws := wsOK }

/-- Witness for `renderDecision_artifact_only`: the two collaborators
differ in exit code, stdout, and stderr, yet the loop outcome is
identical. -/
theorem renderDecision_artifact_only_witness :
    animateTopicRun renderA 5 = animateTopicRun renderB 5 :=
  renderDecision_artifact_only.1 renderA renderB 5 (fun _ => rfl)

/-! ## Claim C9 -/

/-- A source with a nested `ApplyMethod` call: the regex's `([^)]+)`
argument group swallows the inner `ApplyMethod(c.d, e` up to the first
`)`, so the rewritten output contains a fresh `ApplyMethod` match. -/
def aSrc : String := "ApplyMethod(a.b, ApplyMethod(c.d, e)"

/-- C9 counterexample: `auto_fix_deprecated_api` is not idempotent.  On
`aSrc` the first application yields `"a.animate.b(ApplyMethod(c.d, e)"`
— which still matches the `ApplyMethod` pattern — and a second
application rewrites it again, to `"a.animate.b(c.animate.d(e)"`, so
`rewrite(rewrite(s).patched).patched ≠ rewrite(s).patched`. -/
theorem autoFixIdem_counterexample :
    (autoFixDeprecatedApi aSrc).1 = "a.animate.b(ApplyMethod(c.d, e)" ∧
    (autoFixDeprecatedApi (autoFixDeprecatedApi aSrc).1).1 = "a.animate.b(c.animate.d(e)" ∧
    (autoFixDeprecatedApi (autoFixDeprecatedApi aSrc).1).1 ≠ (autoFixDeprecatedApi aSrc).1 :=
  ⟨by decide, by decide, by decide⟩

/-- The rewriter is the identity (with an empty fix list) on any source
containing none of its three trigger patterns. -/
lemma autoFix_noTriggers (t : String)
    (h1 : occursIn "ShowCreation" t = false)
    (h2 : occursIn "self.camera.frame.animate" t = false)
    (h3 : applySearch t.data = false) :
    autoFixDeprecatedApi t = (t, []) := by
  simp only [autoFixDeprecatedApi, h1, h2, h3, Bool.false_eq_true, if_false]

/-- C9 (amended): `auto_fix_deprecated_api` is idempotent on its
patched output **provided** that output no longer contains any trigger
pattern — no `ShowCreation` substring, no `self.camera.frame.animate`
substring, and no `ApplyMethod(\w+.\w+, ...)` match: then a second
application returns the output unchanged with an empty list of applied
fixes.  (A nested `ApplyMethod` call can leave a fresh pattern match in
the output, in which case a second application rewrites further, as the
counterexample shows.) -/
theorem autoFix_second_pass_noop :
    ∀ s : String,
      occursIn "ShowCreation" (autoFixDeprecatedApi s).1 = false →
      occursIn "self.camera.frame.animate" (autoFixDeprecatedApi s).1 = false →
      applySearch (autoFixDeprecatedApi s).1.data = false →
      autoFixDeprecatedApi ((autoFixDeprecatedApi s).1) = ((autoFixDeprecatedApi s).1, []) := by
  intro s h1 h2 h3
  exact autoFix_noTriggers _ h1 h2 h3

/-- Witness for `autoFix_second_pass_noop`: the Scenario-B style source
`"self.play(ShowCreation(circle))"` is rewritten once to
`Create`-form, after which a second application is a no-op. -/
theorem autoFix_second_pass_noop_witness :
    autoFixDeprecatedApi ((autoFixDeprecatedApi "self.play(ShowCreation(circle))").1)
      = ((autoFixDeprecatedApi "self.play(ShowCreation(circle))").1, []) :=
  autoFix_second_pass_noop "self.play(ShowCreation(circle))" (by decide) (by decide) (by decide)

/-! ## Claim C8 -/

/-- The sanitization pipeline exactly as the claim words it: lower-case
first, replace **whitespace** with underscores, strip non-word/
non-hyphen characters, truncate to 50. -/
def claimSanitizeChars (l : List Char) : List Char :=
  (((l.map asciiLower).map (fun c => if c.isWhitespace then '_' else c)).filter
    keepWordHyphen).take 50

/-- The artifact filename as the claim describes it. -/
def claimFilename (name : String) (idx : Nat) : String :=
  String.mk (claimSanitizeChars name.data) ++ "_" ++ decRepr idx ++ ".mp4"

/-- C8 counterexample: the code replaces only space characters, not all
whitespace — `name.replace(" ", "_")`.  For the topic name `"a\tb"`
(with a tab) the code produces `"ab_0.mp4"` (the tab is deleted by the
non-word strip), while the claim's whitespace-to-underscore recipe
produces `"a_b_0.mp4"`. -/
theorem sanitizeWhitespace_counterexample :
    outputFilename "a\tb" 0 = "ab_0.mp4" ∧
    claimFilename "a\tb" 0 = "a_b_0.mp4" ∧
    outputFilename "a\tb" 0 ≠ claimFilename "a\tb" 0 :=
  ⟨by decide, by decide, by decide⟩

/-- The claim's pipeline corrected on the whitespace point: lower-case,
replace space characters with underscores, strip non-word/non-hyphen
characters, truncate to 50. -/
def amendedSanitizeChars (l : List Char) : List Char :=
  (((l.map asciiLower).map replSpace).filter keepWordHyphen).take 50

/-- The artifact filename per the amended recipe. -/
def amendedFilename (name : String) (idx : Nat) : String :=
  String.mk (amendedSanitizeChars name.data) ++ "_" ++ decRepr idx ++ ".mp4"

/-- The map `asciiLower` produces a space only from a space. -/
lemma asciiLower_space_iff (c : Char) : (asciiLower c = ' ') ↔ c = ' ' := by
  unfold asciiLower
  split <;> simp_all

/-- The keep-filter of `_sanitize_filename` is invariant under
lower-casing. -/
lemma keepWordHyphen_asciiLower (c : Char) :
    keepWordHyphen (asciiLower c) = keepWordHyphen c := by
  unfold asciiLower
  split <;> rfl

/-- Space replacement commutes with lower-casing. -/
lemma replSpace_asciiLower (c : Char) :
    replSpace (asciiLower c) = asciiLower (replSpace c) := by
  by_cases h : c = ' '
  · subst h; decide
  · unfold replSpace
    rw [if_neg h, if_neg (fun hh => h ((asciiLower_space_iff c).1 hh))]

/-- Lower-casing moves through the replace/filter stages. -/
lemma lower_filter_comm (l : List Char) :
    List.map asciiLower ((l.map replSpace).filter keepWordHyphen)
      = ((l.map asciiLower).map replSpace).filter keepWordHyphen := by
  induction l with
  | nil => rfl
  | cons c t ih =>
    simp only [List.map_cons, List.filter_cons]
    have hk : keepWordHyphen (replSpace (asciiLower c)) = keepWordHyphen (replSpace c) := by
      rw [replSpace_asciiLower, keepWordHyphen_asciiLower]
    by_cases h : keepWordHyphen (replSpace c) = true
    · rw [if_pos h, if_pos (hk.trans h)]
      simp only [List.map_cons]
      rw [ih, replSpace_asciiLower]
    · rw [if_neg h, if_neg (fun hh => h (hk ▸ hh))]
      exact ih

/-- The code's pipeline (lower-casing last) equals the amended recipe
(lower-casing first). -/
lemma sanitizeChars_eq_amended (l : List Char) :
    sanitizeChars l = amendedSanitizeChars l := by
  unfold sanitizeChars amendedSanitizeChars
  rw [List.map_take, lower_filter_comm]

/-- Every character of `digitChar` output is a decimal digit. -/
lemma digitChar_isDigit (d : Nat) : (digitChar d).isDigit = true := by
  unfold digitChar
  split <;> decide

/-- The map `digitChar` inverts to its digit for `d < 10`. -/
lemma digitVal_digitChar : ∀ d < 10, (digitChar d).toNat - 48 = d := by decide

/-- Appending one digit multiplies the value by ten. -/
lemma decValL_append_digit (l : List Char) (c : Char) :
    decValL (l ++ [c]) = 10 * decValL l + (c.toNat - 48) := by
  unfold decValL
  rw [List.foldl_append]
  rfl

/-- The decimal rendering round-trips through `decValL` (with enough
fuel). -/
lemma decValL_decDigitsAux :
    ∀ (fuel n : Nat), n < fuel → decValL (decDigitsAux fuel n) = n := by
  intro fuel
  induction fuel with
  | zero => intro n h; exact absurd h (Nat.not_lt_zero n)
  | succ f ih =>
    intro n h
    simp only [decDigitsAux]
    by_cases h10 : n < 10
    · rw [if_pos h10]
      have hv := digitVal_digitChar n h10
      show decValL [digitChar n] = n
      unfold decValL
      simp only [List.foldl_cons, List.foldl_nil]
      omega
    · rw [if_neg h10]
      rw [decValL_append_digit]
      have hd : n / 10 < f :=
        Nat.lt_of_lt_of_le (Nat.div_lt_self (by omega) (by omega)) (by omega)
      rw [ih (n / 10) hd]
      have hv := digitVal_digitChar (n % 10) (Nat.mod_lt _ (by omega))
      omega

/-- Rendering via `decDigits` round-trips through `decValL`. -/
lemma decDigits_val (n : Nat) : decValL (decDigits n) = n :=
  decValL_decDigitsAux (n + 1) n (Nat.lt_succ_self n)

/-- Every character of a decimal rendering is a digit. -/
lemma decDigitsAux_all_digits : ∀ (fuel n : Nat) (c : Char),
    c ∈ decDigitsAux fuel n → c.isDigit = true := by
  intro fuel
  induction fuel with
  | zero => intro n c h; simp [decDigitsAux] at h
  | succ f ih =>
    intro n c h
    simp only [decDigitsAux] at h
    by_cases h10 : n < 10
    · rw [if_pos h10] at h
      simp only [List.mem_singleton] at h
      subst h
      exact digitChar_isDigit n
    · rw [if_neg h10] at h
      rcases List.mem_append.1 h with h1 | h2
      · exact ih _ _ h1
      · simp only [List.mem_singleton] at h2
        subst h2
        exact digitChar_isDigit (n % 10)

/-- The segment after the last occurrence of `sep`. -/
def tailAfterLast (sep : Char) (l : List Char) : List Char :=
  (l.reverse.takeWhile (fun c => c != sep)).reverse

/-- A `takeWhile` scan stops exactly at the first failing element. -/
lemma takeWhile_append_stop (p : Char → Bool) :
    ∀ (xs : List Char) (y : Char) (ys : List Char),
      (∀ x ∈ xs, p x = true) → p y = false →
      List.takeWhile p (xs ++ y :: ys) = xs := by
  intro xs
  induction xs with
  | nil =>
    intro y ys _ hy
    simp [List.takeWhile_cons, hy]
  | cons a t ih =>
    intro y ys hall hy
    simp only [List.cons_append, List.takeWhile_cons, hall a (by simp), if_true]
    rw [ih y ys (fun x hx => hall x (by simp [hx])) hy]

/-- Applying `tailAfterLast` recovers the suffix when it contains no
separator. -/
lemma tailAfterLast_append (sep : Char) (a t : List Char)
    (ht : ∀ c ∈ t, (c != sep) = true) :
    tailAfterLast sep (a ++ sep :: t) = t := by
  unfold tailAfterLast
  rw [List.reverse_append, List.reverse_cons, List.append_assoc, List.singleton_append]
  rw [takeWhile_append_stop _ t.reverse sep a.reverse
      (fun c hc => ht c (List.mem_reverse.1 hc)) (by simp)]
  exact List.reverse_reverse t

/-- C8 (amended): the artifact filename is obtained by lower-casing the
topic name, replacing **space characters** with underscores, stripping
all characters that are neither word characters nor hyphens, truncating
to 50 characters, and suffixing `_<index>.mp4` — and filenames are
unique across a batch: any two requests with different indices receive
different filenames, whatever the topic names. -/
theorem outputFilename_spec_and_unique :
    (∀ (name : String) (idx : Nat),
        outputFilename name idx = amendedFilename name idx) ∧
    (∀ (n1 n2 : String) (i j : Nat), i ≠ j →
        outputFilename n1 i ≠ outputFilename n2 j) := by
  constructor
  · intro name idx
    unfold outputFilename amendedFilename sanitizeFilename
    rw [sanitizeChars_eq_amended]
  · intro n1 n2 i j hij heq
    apply hij
    have hd := congrArg String.data heq
    simp only [outputFilename, String.data_append] at hd
    have h1 : (sanitizeFilename n1).data ++ ('_' :: (decDigits i ++ ".mp4".data))
        = (sanitizeFilename n2).data ++ ('_' :: (decDigits j ++ ".mp4".data)) := by
      simpa [List.append_assoc, decRepr] using hd
    have hside : ∀ (k : Nat), ∀ c ∈ decDigits k ++ ".mp4".data, (c != '_') = true := by
      intro k c hc
      rcases List.mem_append.1 hc with h1 | h2
      · have hdig := decDigitsAux_all_digits (k + 1) k c h1
        simp only [bne_iff_ne, ne_eq]
        intro he
        rw [he] at hdig
        exact absurd hdig (by decide)
      · have hm : ".mp4".data = ['.', 'm', 'p', '4'] := rfl
        rw [hm] at h2
        simp only [List.mem_cons, List.not_mem_nil, or_false] at h2
        rcases h2 with h | h | h | h <;> subst h <;> decide
    have h2 := congrArg (tailAfterLast '_') h1
    rw [tailAfterLast_append '_' _ _ (hside i), tailAfterLast_append '_' _ _ (hside j)] at h2
    have h3 := List.append_cancel_right h2
    have h4 := congrArg decValL h3
    rw [decDigits_val, decDigits_val] at h4
    exact h4

/-- Witness for `outputFilename_spec_and_unique`: the same topic name
with indices 0 and 1 yields distinct filenames. -/
theorem outputFilename_spec_and_unique_witness :
    outputFilename "My Topic" 0 ≠ outputFilename "My Topic" 1 :=
  outputFilename_spec_and_unique.2 "My Topic" "My Topic" 0 1 (by decide)

end Knowlify
